import Mathlib

/-!
Verification of `kgp/utils/execute.py`.

The module contains two pieces of logic: the `train` orchestration wrapper
(directory creation, callback-list assembly, delegation to the external
`fit` routine, conditional best-checkpoint reload or warning) and the
`elapsed_timer` context manager.

The embedding below mirrors the source line by line.  External collaborators
(the model's `fit`, `load_weights`, and OS-level `makedirs` failures) are
oracles bundled in `Env`.  Every observable action of the wrapper itself
(filesystem checks and calls, stdout writes, the fit call, warnings) is
recorded in an explicit effect trace so that frame conditions can be stated.
-/

namespace Kgp

/-- Filesystem paths, as plain strings (the source builds them with `%`). -/
abbrev Path := String

/-- An `(inputs, targets)` pair; the contents are opaque to `train`, so each
component is an abstract token. -/
abbrev DataPair := Nat × Nat

/-- The opaque history object returned by the external fit call. -/
abbrev History := Nat

/-- Abstract model weights (mutated in place by fit and by reload). -/
abbrev Weights := Nat

/-- Python exceptions that matter to this module: `KeyError` from dict
indexing, `OSError` from `os.makedirs`, and anything the external
collaborators raise. -/
inductive PyError where
  | keyError (key : String)
  | osError (msg : String)
  | other (msg : String)
deriving DecidableEq, Repr

/-- A Keras callback.  The wrapper only ever constructs `ModelCheckpoint`
hooks (with the four arguments the source passes); caller-supplied callbacks
are opaque. -/
inductive Callback where
  | modelCheckpoint (filepath : String) (monitor : String)
      (save_weights_only : Bool) (save_best_only : Bool)
  | user (id : Nat)
deriving DecidableEq, Repr

/-- The parts of the filesystem the wrapper observes: which directories and
which files exist. -/
structure FS where
  dirs : List Path
  files : List Path
deriving DecidableEq, Repr

/-- `os.path.isdir`. -/
def FS.isdir (fs : FS) (p : Path) : Bool := fs.dirs.contains p

/-- `os.path.isfile`. -/
def FS.isfile (fs : FS) (p : Path) : Bool := fs.files.contains p

/-- The argument record of the delegated `model.fit(...)` call, exactly the
arguments the source passes (positional inputs/targets, then the keyword
arguments, then the verbatim forwarded `**fit_kwargs`). -/
structure FitCall where
  X_train : Nat
  y_train : Nat
  validation_data : Option DataPair
  batch_size : Nat
  nb_epoch : Nat
  callbacks : List Callback
  verbose : Nat
  fit_kwargs : List (String × Nat)
deriving DecidableEq, Repr

/-- One observable action performed by `train` itself.  `fitCall` records the
filesystem state at the moment the delegated fit call begins. -/
inductive Effect where
  | isdirCheck (p : Path) (res : Bool)
  | makedirs (p : Path)
  | stdoutWrite (s : String)
  | stdoutFlush
  | fitCall (c : FitCall) (fsAtCall : FS)
  | isfileCheck (p : Path) (res : Bool)
  | loadWeights (p : Path)
  | warn (msg : String)
deriving DecidableEq, Repr

/-- Effects that touch the filesystem (checks, creation, weight load). -/
def Effect.isFsAccess : Effect → Bool
  | .isdirCheck _ _ => true
  | .makedirs _ => true
  | .isfileCheck _ _ => true
  | .loadWeights _ => true
  | _ => false

/-- Effects that write progress text to standard output. -/
def Effect.isStdoutWrite : Effect → Bool
  | .stdoutWrite _ => true
  | _ => false

/-- Warning emissions. -/
def Effect.isWarn : Effect → Bool
  | .warn _ => true
  | _ => false

/-- Weight-reload actions. -/
def Effect.isLoad : Effect → Bool
  | .loadWeights _ => true
  | _ => false

/-- Delegated fit calls. -/
def Effect.isFit : Effect → Bool
  | .fitCall _ _ => true
  | _ => false

/-- Directory-creation attempts. -/
def Effect.isMakedirs : Effect → Bool
  | .makedirs _ => true
  | _ => false

/-- Either a stdout write or a fit call (used to state ordering of the
progress notices around the fit call). -/
def Effect.isStdoutOrFit : Effect → Bool
  | .stdoutWrite _ => true
  | .fitCall _ _ => true
  | _ => false

/-- The callbacks list passed to a fit call, when the effect is one. -/
def Effect.fitCallbacks : Effect → Option (List Callback)
  | .fitCall c _ => some c.callbacks
  | _ => none

/-- Result of a successful external fit call: the history object, the
filesystem afterwards (the checkpoint hook may have written a file), and the
model's end-of-training weights. -/
structure FitRes where
  history : History
  fs : FS
  weights : Weights
deriving DecidableEq, Repr

/-- Oracles for the external collaborators: OS-level failures of
`os.makedirs` beyond the directory already existing, the model's `fit`, and
the model's `load_weights` (returning the weights stored in the file). -/
structure Env where
  mkdirFail : FS → Path → Option PyError
  fitResult : FitCall → FS → Weights → Except PyError FitRes
  loadResult : Path → FS → Except PyError Weights

/-- `os.makedirs`: raises if the directory already exists, may fail for
OS reasons (via the oracle), otherwise creates the directory. -/
def makedirs (env : Env) (fs : FS) (p : Path) : Except PyError FS :=
  if fs.isdir p then .error (.osError "File exists")
  else
    match env.mkdirFail fs p with
    | some e => .error e
    | none => .ok { fs with dirs := p :: fs.dirs }

/-- The directory the source hard-codes. -/
def checkpointsDir : Path := "checkpoints/"

/-- The derived checkpoint path: `'checkpoints/%s.h5' % checkpoint`. -/
def checkpointPath (name : String) : Path := "checkpoints/" ++ name ++ ".h5"

/-- The literal warning text of the source (line-wrapped there). -/
def checkpointWarning : String :=
  "Checkpoint file was specified, but no models were saved by the monitor. Make sure the validation dataset is specified and the monitoring channel is set correctly."

/-- Lines 58-59 of the source: check `os.path.isdir('checkpoints/')` and call
`os.makedirs('checkpoints/')` only when it is absent.  Returns the resulting
filesystem (or the propagated exception) together with the effects. -/
def dirPhase (env : Env) (fs : FS) : Except PyError FS × List Effect :=
  if fs.isdir checkpointsDir then
    (.ok fs, [.isdirCheck checkpointsDir true])
  else
    match makedirs env fs checkpointsDir with
    | .error e => (.error e, [.isdirCheck checkpointsDir false, .makedirs checkpointsDir])
    | .ok fs' => (.ok fs', [.isdirCheck checkpointsDir false, .makedirs checkpointsDir])

/-- Lines 57-59: the directory phase runs only when `checkpoint is not None`. -/
def maybeDirPhase (env : Env) (checkpoint : Option String) (fs : FS) :
    Except PyError FS × List Effect :=
  match checkpoint with
  | none => (.ok fs, [])
  | some _ => dirPhase env fs

/-- Lines 62-66: when `checkpoint is not None`, the callbacks list is
extended (in place, via `+=`) with one `ModelCheckpoint` hook for the
derived path, the given monitor, `save_weights_only=True` and
`save_best_only=True`. -/
def ckptCallbacks (callbacks : List Callback) (checkpoint : Option String)
    (checkpoint_monitor : String) : List Callback :=
  match checkpoint with
  | none => callbacks
  | some name =>
      callbacks ++
        [Callback.modelCheckpoint (checkpointPath name) checkpoint_monitor true true]

/-- The fit-call record assembled on lines 73-76. -/
def mkFitCall (X_train y_train : Nat) (validation_data : Option DataPair)
    (batch_size nb_epoch : Nat) (callbacks : List Callback) (verbose : Nat)
    (fit_kwargs : List (String × Nat)) : FitCall :=
  { X_train := X_train, y_train := y_train, validation_data := validation_data,
    batch_size := batch_size, nb_epoch := nb_epoch, callbacks := callbacks,
    verbose := verbose, fit_kwargs := fit_kwargs }

/-- Lines 82-89: after fit, when a checkpoint was requested, either reload the
weights from the checkpoint file when it exists, or emit the warning.
Returns the call's final result, the final weights, and the effects. -/
def loadPhase (env : Env) (checkpoint : Option String) (r : FitRes) :
    Except PyError History × Weights × List Effect :=
  match checkpoint with
  | none => (.ok r.history, r.weights, [])
  | some name =>
    if r.fs.isfile (checkpointPath name) then
      match env.loadResult (checkpointPath name) r.fs with
      | .error e =>
          (.error e, r.weights,
           [.isfileCheck (checkpointPath name) true, .loadWeights (checkpointPath name)])
      | .ok w' =>
          (.ok r.history, w',
           [.isfileCheck (checkpointPath name) true, .loadWeights (checkpointPath name)])
    else
      (.ok r.history, r.weights,
       [.isfileCheck (checkpointPath name) false, .warn checkpointWarning])

/-- Outcome of one call to `train`: its result (the history object, or the
propagated exception), the filesystem and model weights afterwards, the
trace of the wrapper's own observable actions, and the final state of the
caller's callbacks list object (which line 63 extends in place with `+=`). -/
structure TrainOut where
  result : Except PyError History
  fs : FS
  weights : Weights
  trace : List Effect
  callbacksAfter : List Callback

/-- Python dict indexing `data[k]`, as an optional lookup (a `none` models
the `KeyError`). -/
def dictGet (data : List (String × DataPair)) (k : String) : Option DataPair :=
  (data.find? (fun kv => kv.1 == k)).map (fun kv => kv.2)

/-- The `train` procedure of `kgp/utils/execute.py`, lines 27-91, embedded
step by step: unpack `data['train']` and `data['test']` (a missing key
raises), read the optional `valid` entry, ensure the checkpoint directory
when requested, extend the callbacks list in place with one `ModelCheckpoint`
hook, print the start notice when verbose, delegate to `model.fit`, print the
completion notice, then conditionally reload the best checkpoint or warn, and
return the history. -/
def train (env : Env) (fs0 : FS) (w0 : Weights)
    (data : List (String × DataPair))
    (nb_epoch : Nat) (batch_size : Nat)
    (callbacks : List Callback)
    (checkpoint : Option String)
    (checkpoint_monitor : String)
    (verbose : Nat)
    (fit_kwargs : List (String × Nat)) : TrainOut :=
  match dictGet data "train" with
  | none => ⟨.error (.keyError "train"), fs0, w0, [], callbacks⟩
  | some (X_train, y_train) =>
    match dictGet data "test" with
    | none => ⟨.error (.keyError "test"), fs0, w0, [], callbacks⟩
    | some _ =>
      let validation_data := dictGet data "valid"
      match maybeDirPhase env checkpoint fs0 with
      | (.error e, tr1) => ⟨.error e, fs0, w0, tr1, callbacks⟩
      | (.ok fs1, tr1) =>
        let callbacks1 := ckptCallbacks callbacks checkpoint checkpoint_monitor
        let startNotice :=
          if verbose ≠ 0 then [Effect.stdoutWrite "Training...\n", Effect.stdoutFlush]
          else []
        let c := mkFitCall X_train y_train validation_data batch_size nb_epoch
                   callbacks1 verbose fit_kwargs
        match env.fitResult c fs1 w0 with
        | .error e =>
            ⟨.error e, fs1, w0, tr1 ++ startNotice ++ [.fitCall c fs1], callbacks1⟩
        | .ok r =>
            let doneNotice :=
              if verbose ≠ 0 then [Effect.stdoutWrite "Done.\n"] else []
            let lp := loadPhase env checkpoint r
            ⟨lp.1, r.fs, lp.2.1,
             tr1 ++ startNotice ++ [.fitCall c fs1] ++ doneNotice ++ lp.2.2,
             callbacks1⟩

/-- Modelled from the source's runtime semantics: Python evaluates the
default value `callbacks=[]` once, at function-definition time, and line 63's
in-place `callbacks += [...]` mutates that shared list object.  Two
sequential calls that both rely on the default therefore both operate on that
one object, the second seeing whatever the first accumulated.  This runs the
two-call scenario, threading the default list object, the filesystem, and the
weights from the first call into the second. -/
def twoDefaultCalls (env : Env) (fs0 : FS) (w0 : Weights)
    (data : List (String × DataPair))
    (nb_epoch batch_size : Nat)
    (checkpoint : Option String) (checkpoint_monitor : String)
    (verbose : Nat) (fit_kwargs : List (String × Nat)) : TrainOut × TrainOut :=
  let defaultCallbacks : List Callback := []
  let out1 := train env fs0 w0 data nb_epoch batch_size defaultCallbacks
                checkpoint checkpoint_monitor verbose fit_kwargs
  let out2 := train env out1.fs out1.weights data nb_epoch batch_size
                out1.callbacksAfter checkpoint checkpoint_monitor verbose fit_kwargs
  (out1, out2)

/-- `timeit.default_timer`, modelled as reading an abstract wall clock at a
given tick. -/
def default_timer (clock : Nat → ℚ) (k : Nat) : ℚ := clock k

/-- The `elapsed_timer` context manager, lines 18-24: entering the scope at
tick `k0` samples `start = default_timer()`; the yielded callable, invoked at
tick `k` inside the scope, recomputes `default_timer() - start`. -/
def elapsed_timer (clock : Nat → ℚ) (k0 : Nat) : Nat → ℚ :=
  let start := default_timer clock k0
  fun k => default_timer clock k - start

/-! Concrete sample inputs used by the witness theorems. -/

/-- A benign environment: no OS failures, fit returns history 7 and leaves
the world unchanged, loading returns weights 42. -/
def demoEnv : Env where
  mkdirFail := fun _ _ => none
  fitResult := fun _ fs w => .ok ⟨7, fs, w⟩
  loadResult := fun _ _ => .ok 42

/-- Like `demoEnv`, but fit writes the checkpoint file `checkpoints/m1.h5`
and ends with weights 5. -/
def demoEnvCkpt : Env where
  mkdirFail := fun _ _ => none
  fitResult := fun _ fs _ => .ok ⟨7, { fs with files := "checkpoints/m1.h5" :: fs.files }, 5⟩
  loadResult := fun _ _ => .ok 42

/-- An environment whose external calls all fail, to exercise propagation. -/
def demoEnvFail : Env where
  mkdirFail := fun _ _ => some (.osError "Permission denied")
  fitResult := fun _ _ _ => .error (.other "fit blew up")
  loadResult := fun _ _ => .error (.other "corrupt file")

/-- Fit writes the checkpoint file, but loading it fails. -/
def demoEnvLoadFail : Env where
  mkdirFail := fun _ _ => none
  fitResult := fun _ fs _ => .ok ⟨7, { fs with files := "checkpoints/m1.h5" :: fs.files }, 5⟩
  loadResult := fun _ _ => .error (.other "corrupt file")

/-- A dataset with train, valid and test splits. -/
def demoData : List (String × DataPair) :=
  [("train", (1, 2)), ("valid", (5, 6)), ("test", (3, 4))]

/-- A dataset with only train and test splits. -/
def demoDataNoValid : List (String × DataPair) :=
  [("train", (1, 2)), ("test", (3, 4))]

/-- An empty filesystem. -/
def emptyFS : FS := ⟨[], []⟩

/-- A filesystem where the checkpoints directory already exists. -/
def fsWithDir : FS := ⟨["checkpoints/"], []⟩

/-- A filesystem where the directory and the file `checkpoints/m1.h5` exist. -/
def fsWithFile : FS := ⟨["checkpoints/"], ["checkpoints/m1.h5"]⟩

/-! Helper lemmas about the phases of `train`. -/

theorem dirPhase_isdir (env : Env) (fs : FS) (h : fs.isdir checkpointsDir = true) :
    dirPhase env fs = (.ok fs, [.isdirCheck checkpointsDir true]) := by
  simp [dirPhase, h]

theorem dirPhase_mkdir (env : Env) (fs : FS) (h : fs.isdir checkpointsDir = false)
    (hmk : env.mkdirFail fs checkpointsDir = none) :
    dirPhase env fs = (.ok { fs with dirs := checkpointsDir :: fs.dirs },
      [.isdirCheck checkpointsDir false, .makedirs checkpointsDir]) := by
  simp [dirPhase, makedirs, h, hmk]

theorem dirPhase_mkdir_fail (env : Env) (fs : FS) (e : PyError)
    (h : fs.isdir checkpointsDir = false)
    (hmk : env.mkdirFail fs checkpointsDir = some e) :
    dirPhase env fs = (.error e,
      [.isdirCheck checkpointsDir false, .makedirs checkpointsDir]) := by
  simp [dirPhase, makedirs, h, hmk]

/-- Whenever the directory phase succeeds, the checkpoints directory exists in
the resulting filesystem. -/
theorem dirPhase_ok_isdir (env : Env) (fs fs' : FS) (tr : List Effect)
    (h : dirPhase env fs = (.ok fs', tr)) : fs'.isdir checkpointsDir = true := by
  by_cases hd : fs.isdir checkpointsDir
  · rw [dirPhase_isdir env fs hd] at h
    cases h
    exact hd
  · simp only [Bool.not_eq_true] at hd
    cases hmk : env.mkdirFail fs checkpointsDir with
    | none =>
      rw [dirPhase_mkdir env fs hd hmk] at h
      cases h
      simp [FS.isdir, List.contains_cons]
    | some e =>
      rw [dirPhase_mkdir_fail env fs e hd hmk] at h
      cases h

/-- The directory phase emits only filesystem-check/creation effects. -/
theorem dirPhase_snd_filter (env : Env) (fs : FS) (p : Effect → Bool)
    (h1 : ∀ q b, p (.isdirCheck q b) = false) (h2 : ∀ q, p (.makedirs q) = false) :
    ((dirPhase env fs).2).filter p = [] := by
  by_cases hd : fs.isdir checkpointsDir
  · rw [dirPhase_isdir env fs hd]
    simp [h1]
  · simp only [Bool.not_eq_true] at hd
    cases hmk : env.mkdirFail fs checkpointsDir with
    | none => rw [dirPhase_mkdir env fs hd hmk]; simp [h1, h2]
    | some e => rw [dirPhase_mkdir_fail env fs e hd hmk]; simp [h1, h2]

theorem maybeDirPhase_snd_filter (env : Env) (cp : Option String) (fs : FS)
    (p : Effect → Bool)
    (h1 : ∀ q b, p (.isdirCheck q b) = false) (h2 : ∀ q, p (.makedirs q) = false) :
    ((maybeDirPhase env cp fs).2).filter p = [] := by
  cases cp with
  | none => simp [maybeDirPhase]
  | some n => simpa [maybeDirPhase] using dirPhase_snd_filter env fs p h1 h2

theorem loadPhase_nofile (env : Env) (n : String) (r : FitRes)
    (h : r.fs.isfile (checkpointPath n) = false) :
    loadPhase env (some n) r = (.ok r.history, r.weights,
      [.isfileCheck (checkpointPath n) false, .warn checkpointWarning]) := by
  simp [loadPhase, h]

theorem loadPhase_file_ok (env : Env) (n : String) (r : FitRes) (w' : Weights)
    (h : r.fs.isfile (checkpointPath n) = true)
    (hl : env.loadResult (checkpointPath n) r.fs = .ok w') :
    loadPhase env (some n) r = (.ok r.history, w',
      [.isfileCheck (checkpointPath n) true, .loadWeights (checkpointPath n)]) := by
  simp [loadPhase, h, hl]

theorem loadPhase_file_err (env : Env) (n : String) (r : FitRes) (e : PyError)
    (h : r.fs.isfile (checkpointPath n) = true)
    (hl : env.loadResult (checkpointPath n) r.fs = .error e) :
    loadPhase env (some n) r = (.error e, r.weights,
      [.isfileCheck (checkpointPath n) true, .loadWeights (checkpointPath n)]) := by
  simp [loadPhase, h, hl]

/-- The load phase emits only file-check, load and warning effects. -/
theorem loadPhase_snd_filter (env : Env) (cp : Option String) (r : FitRes)
    (p : Effect → Bool)
    (h1 : ∀ q b, p (.isfileCheck q b) = false) (h2 : ∀ q, p (.loadWeights q) = false)
    (h3 : ∀ m, p (.warn m) = false) :
    ((loadPhase env cp r).2.2).filter p = [] := by
  cases cp with
  | none => simp [loadPhase]
  | some n =>
    by_cases h : r.fs.isfile (checkpointPath n)
    · cases hl : env.loadResult (checkpointPath n) r.fs with
      | error e => rw [loadPhase_file_err env n r e h hl]; simp [h1, h2, h3]
      | ok w' => rw [loadPhase_file_ok env n r w' h hl]; simp [h1, h2, h3]
    · simp only [Bool.not_eq_true] at h
      rw [loadPhase_nofile env n r h]
      simp [h1, h2, h3]

/-- Unfolding of `train` once the data lookups and the directory phase have
succeeded, exposing the fit call and the final assembly. -/
theorem train_unfold_ok (env : Env) (fs0 : FS) (w0 : Weights)
    (data : List (String × DataPair)) (nb_epoch batch_size : Nat)
    (callbacks : List Callback) (cp : Option String) (mon : String)
    (verbose : Nat) (kw : List (String × Nat))
    (xt yt : Nat) (q : DataPair) (fs1 : FS) (tr1 : List Effect)
    (ht : dictGet data "train" = some (xt, yt))
    (hs : dictGet data "test" = some q)
    (hmdp : maybeDirPhase env cp fs0 = (.ok fs1, tr1)) :
    train env fs0 w0 data nb_epoch batch_size callbacks cp mon verbose kw =
      (let callbacks1 := ckptCallbacks callbacks cp mon
      let startNotice :=
        if verbose ≠ 0 then [Effect.stdoutWrite "Training...\n", Effect.stdoutFlush]
        else []
      let c := mkFitCall xt yt (dictGet data "valid") batch_size nb_epoch
                 callbacks1 verbose kw
      match env.fitResult c fs1 w0 with
      | .error e =>
          ⟨.error e, fs1, w0, tr1 ++ startNotice ++ [.fitCall c fs1], callbacks1⟩
      | .ok r =>
          let doneNotice :=
            if verbose ≠ 0 then [Effect.stdoutWrite "Done.\n"] else []
          let lp := loadPhase env cp r
          ⟨lp.1, r.fs, lp.2.1,
           tr1 ++ startNotice ++ [.fitCall c fs1] ++ doneNotice ++ lp.2.2,
           callbacks1⟩) := by
  unfold train
  rw [ht, hs, hmdp]

/-- C1: for every call to `train` with `checkpoint` set, if after the fit
call a file exists at the derived path `checkpoints/<checkpoint>.h5`, the
model's weights are overwritten in place by loading that file, so the
returned model reflects the best checkpointed state (the loaded weights)
rather than the state at the end of the last epoch, while the history is
returned unchanged. -/
theorem C1_reload_best_checkpoint
    (env : Env) (fs0 : FS) (w0 : Weights) (data : List (String × DataPair))
    (nb bs : Nat) (cbs : List Callback) (n mon : String) (v : Nat)
    (kw : List (String × Nat)) (xt yt : Nat) (q : DataPair)
    (fs1 : FS) (tr1 : List Effect) (r : FitRes) (w' : Weights)
    (ht : dictGet data "train" = some (xt, yt))
    (hs : dictGet data "test" = some q)
    (hd : maybeDirPhase env (some n) fs0 = (.ok fs1, tr1))
    (hf : env.fitResult (mkFitCall xt yt (dictGet data "valid") bs nb
            (ckptCallbacks cbs (some n) mon) v kw) fs1 w0 = .ok r)
    (hfile : r.fs.isfile (checkpointPath n) = true)
    (hl : env.loadResult (checkpointPath n) r.fs = .ok w') :
    (train env fs0 w0 data nb bs cbs (some n) mon v kw).weights = w' ∧
    Effect.loadWeights (checkpointPath n) ∈
      (train env fs0 w0 data nb bs cbs (some n) mon v kw).trace ∧
    (train env fs0 w0 data nb bs cbs (some n) mon v kw).result = .ok r.history := by
  rw [train_unfold_ok env fs0 w0 data nb bs cbs (some n) mon v kw xt yt q fs1 tr1
        ht hs hd]
  simp only [hf, loadPhase_file_ok env n r w' hfile hl]
  simp [List.mem_append]

/-- Closed witness for C1 at concrete inputs. -/
theorem C1_reload_best_checkpoint_witness :
    (train demoEnvCkpt fsWithDir 0 demoData 100 128 [] (some "m1") "val_loss" 1
      []).weights = 42 ∧
    Effect.loadWeights (checkpointPath "m1") ∈
      (train demoEnvCkpt fsWithDir 0 demoData 100 128 [] (some "m1") "val_loss" 1
        []).trace ∧
    (train demoEnvCkpt fsWithDir 0 demoData 100 128 [] (some "m1") "val_loss" 1
      []).result = .ok 7 :=
  C1_reload_best_checkpoint demoEnvCkpt fsWithDir 0 demoData 100 128 []
    "m1" "val_loss" 1 [] 1 2 (3, 4) fsWithDir [.isdirCheck checkpointsDir true]
    ⟨7, fsWithFile, 5⟩ 42 rfl rfl rfl rfl rfl rfl

/-- C2: for every call to `train` with `checkpoint` set where no file exists
at the derived path after fit returns, exactly one non-fatal warning is
emitted, no weight reload is attempted, and the call still returns the
history object without raising an exception. -/
theorem C2_warning_when_no_checkpoint_file
    (env : Env) (fs0 : FS) (w0 : Weights) (data : List (String × DataPair))
    (nb bs : Nat) (cbs : List Callback) (n mon : String) (v : Nat)
    (kw : List (String × Nat)) (xt yt : Nat) (q : DataPair)
    (fs1 : FS) (tr1 : List Effect) (r : FitRes)
    (ht : dictGet data "train" = some (xt, yt))
    (hs : dictGet data "test" = some q)
    (hd : maybeDirPhase env (some n) fs0 = (.ok fs1, tr1))
    (hf : env.fitResult (mkFitCall xt yt (dictGet data "valid") bs nb
            (ckptCallbacks cbs (some n) mon) v kw) fs1 w0 = .ok r)
    (hfile : r.fs.isfile (checkpointPath n) = false) :
    (train env fs0 w0 data nb bs cbs (some n) mon v kw).result = .ok r.history ∧
    (train env fs0 w0 data nb bs cbs (some n) mon v kw).trace.filter
      Effect.isWarn = [Effect.warn checkpointWarning] ∧
    (train env fs0 w0 data nb bs cbs (some n) mon v kw).trace.filter
      Effect.isLoad = [] := by
  have htr1 : ∀ p : Effect → Bool, (∀ q b, p (.isdirCheck q b) = false) →
      (∀ q, p (.makedirs q) = false) → tr1.filter p = [] := by
    intro p h1 h2
    have h := maybeDirPhase_snd_filter env (some n) fs0 p h1 h2
    rw [hd] at h
    exact h
  rw [train_unfold_ok env fs0 w0 data nb bs cbs (some n) mon v kw xt yt q fs1 tr1
        ht hs hd]
  simp only [hf, loadPhase_nofile env n r hfile]
  refine ⟨by trivial, ?_, ?_⟩
  · simp only [List.filter_append, htr1 Effect.isWarn (fun _ _ => rfl) (fun _ => rfl)]
    by_cases hv : v ≠ 0 <;> simp [hv, Effect.isWarn]
  · simp only [List.filter_append, htr1 Effect.isLoad (fun _ _ => rfl) (fun _ => rfl)]
    by_cases hv : v ≠ 0 <;> simp [hv, Effect.isLoad]

/-- Closed witness for C2 at concrete inputs (no `valid` split, so the benign
environment never writes the checkpoint file). -/
theorem C2_warning_when_no_checkpoint_file_witness :
    (train demoEnv fsWithDir 0 demoDataNoValid 100 128 [] (some "m1") "val_loss"
      1 []).result = .ok 7 ∧
    (train demoEnv fsWithDir 0 demoDataNoValid 100 128 [] (some "m1") "val_loss"
      1 []).trace.filter Effect.isWarn = [Effect.warn checkpointWarning] ∧
    (train demoEnv fsWithDir 0 demoDataNoValid 100 128 [] (some "m1") "val_loss"
      1 []).trace.filter Effect.isLoad = [] :=
  C2_warning_when_no_checkpoint_file demoEnv fsWithDir 0 demoDataNoValid 100 128
    [] "m1" "val_loss" 1 [] 1 2 (3, 4) fsWithDir [.isdirCheck checkpointsDir true]
    ⟨7, fsWithDir, 0⟩ rfl rfl rfl rfl rfl

/-- C3: for every call to `train` with `checkpoint` set, the callback
sequence passed to the (unique) fit call is the caller's sequence extended
with exactly one checkpoint hook, configured with path
`checkpoints/<checkpoint>.h5`, monitoring `checkpoint_monitor`, saving
weights only, and saving only on improvement. -/
theorem C3_fit_callbacks_extended
    (env : Env) (fs0 : FS) (w0 : Weights) (data : List (String × DataPair))
    (nb bs : Nat) (cbs : List Callback) (n mon : String) (v : Nat)
    (kw : List (String × Nat)) (xt yt : Nat) (q : DataPair)
    (fs1 : FS) (tr1 : List Effect)
    (ht : dictGet data "train" = some (xt, yt))
    (hs : dictGet data "test" = some q)
    (hd : maybeDirPhase env (some n) fs0 = (.ok fs1, tr1)) :
    (train env fs0 w0 data nb bs cbs (some n) mon v kw).trace.filter Effect.isFit
      = [Effect.fitCall (mkFitCall xt yt (dictGet data "valid") bs nb
           (cbs ++ [Callback.modelCheckpoint (checkpointPath n) mon true true])
           v kw) fs1] := by
  have htr1 : tr1.filter Effect.isFit = [] := by
    have h := maybeDirPhase_snd_filter env (some n) fs0 Effect.isFit
      (fun _ _ => rfl) (fun _ => rfl)
    rw [hd] at h
    exact h
  have hlp : ∀ r : FitRes, ((loadPhase env (some n) r).2.2).filter Effect.isFit = [] :=
    fun r => loadPhase_snd_filter env (some n) r Effect.isFit
      (fun _ _ => rfl) (fun _ => rfl) (fun _ => rfl)
  rw [train_unfold_ok env fs0 w0 data nb bs cbs (some n) mon v kw xt yt q fs1 tr1
        ht hs hd]
  simp only [ckptCallbacks]
  cases hf : env.fitResult (mkFitCall xt yt (dictGet data "valid") bs nb
      (cbs ++ [Callback.modelCheckpoint (checkpointPath n) mon true true]) v kw)
      fs1 w0 with
  | error e =>
    simp only [hf, List.filter_append, htr1]
    by_cases hv : v ≠ 0 <;> simp [hv, Effect.isFit]
  | ok r =>
    simp only [hf, List.filter_append, htr1, hlp r]
    by_cases hv : v ≠ 0 <;> simp [hv, Effect.isFit]

/-- The unique fit call recorded in a run whose lookups and directory phase
succeed: shared helper for several claims. -/
theorem train_filter_isFit (env : Env) (fs0 : FS) (w0 : Weights)
    (data : List (String × DataPair)) (nb bs : Nat) (cbs : List Callback)
    (cp : Option String) (mon : String) (v : Nat) (kw : List (String × Nat))
    (xt yt : Nat) (q : DataPair) (fs1 : FS) (tr1 : List Effect)
    (ht : dictGet data "train" = some (xt, yt))
    (hs : dictGet data "test" = some q)
    (hd : maybeDirPhase env cp fs0 = (.ok fs1, tr1)) :
    (train env fs0 w0 data nb bs cbs cp mon v kw).trace.filter Effect.isFit
      = [Effect.fitCall (mkFitCall xt yt (dictGet data "valid") bs nb
           (ckptCallbacks cbs cp mon) v kw) fs1] := by
  have htr1 : tr1.filter Effect.isFit = [] := by
    have h := maybeDirPhase_snd_filter env cp fs0 Effect.isFit
      (fun _ _ => rfl) (fun _ => rfl)
    rw [hd] at h
    exact h
  have hlp : ∀ r : FitRes, ((loadPhase env cp r).2.2).filter Effect.isFit = [] :=
    fun r => loadPhase_snd_filter env cp r Effect.isFit
      (fun _ _ => rfl) (fun _ => rfl) (fun _ => rfl)
  rw [train_unfold_ok env fs0 w0 data nb bs cbs cp mon v kw xt yt q fs1 tr1
        ht hs hd]
  cases hf : env.fitResult (mkFitCall xt yt (dictGet data "valid") bs nb
      (ckptCallbacks cbs cp mon) v kw) fs1 w0 with
  | error e =>
    simp only [hf, List.filter_append, htr1]
    by_cases hv : v ≠ 0 <;> simp [hv, Effect.isFit]
  | ok r =>
    simp only [hf, List.filter_append, htr1, hlp r]
    by_cases hv : v ≠ 0 <;> simp [hv, Effect.isFit]

/-- Closed witness for C3 at concrete inputs. -/
theorem C3_fit_callbacks_extended_witness :
    (train demoEnv fsWithDir 0 demoData 100 128 [Callback.user 9] (some "m1")
      "val_loss" 1 []).trace.filter Effect.isFit
      = [Effect.fitCall (mkFitCall 1 2 (some (5, 6)) 128 100
           ([Callback.user 9] ++
             [Callback.modelCheckpoint (checkpointPath "m1") "val_loss" true true])
           1 []) fsWithDir] :=
  C3_fit_callbacks_extended demoEnv fsWithDir 0 demoData 100 128
    [Callback.user 9] "m1" "val_loss" 1 [] 1 2 (3, 4) fsWithDir
    [.isdirCheck checkpointsDir true] rfl rfl rfl

/-- C4: for every call to `train` with `checkpoint` left at its default
`None`, the procedure performs no filesystem access of any kind (no
directory check, no directory creation, no file-existence check, no weight
load) and returns the object produced by the delegated fit call unchanged. -/
theorem C4_no_checkpoint_no_fs_access
    (env : Env) (fs0 : FS) (w0 : Weights) (data : List (String × DataPair))
    (nb bs : Nat) (cbs : List Callback) (mon : String) (v : Nat)
    (kw : List (String × Nat)) (xt yt : Nat) (q : DataPair)
    (ht : dictGet data "train" = some (xt, yt))
    (hs : dictGet data "test" = some q) :
    (train env fs0 w0 data nb bs cbs none mon v kw).trace.filter
      Effect.isFsAccess = [] ∧
    (train env fs0 w0 data nb bs cbs none mon v kw).result
      = (env.fitResult (mkFitCall xt yt (dictGet data "valid") bs nb cbs v kw)
          fs0 w0).map FitRes.history := by
  rw [train_unfold_ok env fs0 w0 data nb bs cbs none mon v kw xt yt q fs0 []
        ht hs rfl]
  simp only [ckptCallbacks]
  cases hf : env.fitResult (mkFitCall xt yt (dictGet data "valid") bs nb
      cbs v kw) fs0 w0 with
  | error e =>
    refine ⟨?_, ?_⟩
    · simp only [hf, List.filter_append]
      by_cases hv : v ≠ 0 <;> simp [hv, Effect.isFsAccess]
    · simp [hf, Except.map]
  | ok r =>
    refine ⟨?_, ?_⟩
    · simp only [hf, List.filter_append]
      by_cases hv : v ≠ 0 <;> simp [hv, Effect.isFsAccess, loadPhase]
    · simp [hf, Except.map, loadPhase]

/-- Closed witness for C4 at concrete inputs. -/
theorem C4_no_checkpoint_no_fs_access_witness :
    (train demoEnv emptyFS 0 demoDataNoValid 100 128 [] none "val_loss" 1
      []).trace.filter Effect.isFsAccess = [] ∧
    (train demoEnv emptyFS 0 demoDataNoValid 100 128 [] none "val_loss" 1
      []).result
      = (demoEnv.fitResult (mkFitCall 1 2 none 128 100 [] 1 []) emptyFS 0).map
          FitRes.history :=
  C4_no_checkpoint_no_fs_access demoEnv emptyFS 0 demoDataNoValid 100 128 []
    "val_loss" 1 [] 1 2 (3, 4) rfl rfl

/-- C5: for every call to `train` with `checkpoint` set (and no OS-level
mkdir failure), the directory `checkpoints/` exists in the filesystem state
at the moment the fit call begins; and creating it is idempotent: whenever
the directory already exists (as after a previous call with the same
checkpoint name), no `makedirs` call is attempted at all, so the call cannot
fail because the directory already exists. -/
theorem C5_checkpoint_dir_exists_before_fit
    (env : Env) (fs0 : FS) (w0 : Weights) (data : List (String × DataPair))
    (nb bs : Nat) (cbs : List Callback) (n mon : String) (v : Nat)
    (kw : List (String × Nat)) (xt yt : Nat) (q : DataPair) :
    (dictGet data "train" = some (xt, yt) → dictGet data "test" = some q →
      env.mkdirFail fs0 checkpointsDir = none →
      ∀ (c : FitCall) (fsAt : FS),
        Effect.fitCall c fsAt ∈ (train env fs0 w0 data nb bs cbs (some n) mon
          v kw).trace → fsAt.isdir checkpointsDir = true) ∧
    (fs0.isdir checkpointsDir = true →
      (train env fs0 w0 data nb bs cbs (some n) mon
        v kw).trace.filter Effect.isMakedirs = []) := by
  constructor
  · intro ht hs hmk c fsAt hmem
    have main : ∀ (fs1 : FS) (tr1 : List Effect),
        maybeDirPhase env (some n) fs0 = (.ok fs1, tr1) →
        fs1.isdir checkpointsDir = true → fsAt.isdir checkpointsDir = true := by
      intro fs1 tr1 hd hfs1
      have hfilter := train_filter_isFit env fs0 w0 data nb bs cbs (some n) mon
        v kw xt yt q fs1 tr1 ht hs hd
      have hmemf : Effect.fitCall c fsAt ∈
          (train env fs0 w0 data nb bs cbs (some n) mon v kw).trace.filter
            Effect.isFit :=
        List.mem_filter.mpr ⟨hmem, rfl⟩
      rw [hfilter] at hmemf
      simp only [List.mem_singleton, Effect.fitCall.injEq] at hmemf
      rw [hmemf.2]
      exact hfs1
    by_cases hdir : fs0.isdir checkpointsDir
    · exact main fs0 [.isdirCheck checkpointsDir true]
        (by simp [maybeDirPhase, dirPhase_isdir env fs0 hdir]) hdir
    · simp only [Bool.not_eq_true] at hdir
      exact main { fs0 with dirs := checkpointsDir :: fs0.dirs }
        [.isdirCheck checkpointsDir false, .makedirs checkpointsDir]
        (by simp [maybeDirPhase, dirPhase_mkdir env fs0 hdir hmk])
        (by simp [FS.isdir, List.contains_cons])
  · intro hdir
    unfold train
    cases ht : dictGet data "train" with
    | none => simp
    | some p =>
      obtain ⟨xt1, yt1⟩ := p
      cases hs : dictGet data "test" with
      | none => simp
      | some q1 =>
        have hd : maybeDirPhase env (some n) fs0
            = (.ok fs0, [.isdirCheck checkpointsDir true]) := by
          simp [maybeDirPhase, dirPhase_isdir env fs0 hdir]
        rw [hd]
        have hlp : ∀ r : FitRes,
            ((loadPhase env (some n) r).2.2).filter Effect.isMakedirs = [] :=
          fun r => loadPhase_snd_filter env (some n) r Effect.isMakedirs
            (fun _ _ => rfl) (fun _ => rfl) (fun _ => rfl)
        cases hf : env.fitResult (mkFitCall xt1 yt1 (dictGet data "valid") bs nb
            (ckptCallbacks cbs (some n) mon) v kw) fs0 w0 with
        | error e =>
          simp only [hf, List.filter_append]
          by_cases hv : v ≠ 0 <;> simp [hv, Effect.isMakedirs]
        | ok r =>
          simp only [hf, List.filter_append, hlp r]
          by_cases hv : v ≠ 0 <;> simp [hv, Effect.isMakedirs, hlp r]

/-- Closed witness for C5 at concrete inputs: the first call starts from an
empty filesystem and creates the directory before its fit call; the second
starts with the directory present and attempts no creation. -/
theorem C5_checkpoint_dir_exists_before_fit_witness :
    FS.isdir ⟨["checkpoints/"], []⟩ checkpointsDir = true ∧
    (train demoEnv fsWithDir 0 demoDataNoValid 100 128 [] (some "m1") "val_loss"
      1 []).trace.filter Effect.isMakedirs = [] := by
  constructor
  · exact (C5_checkpoint_dir_exists_before_fit demoEnv emptyFS 0 demoDataNoValid
      100 128 [] "m1" "val_loss" 1 [] 1 2 (3, 4)).1 rfl rfl rfl
      (mkFitCall 1 2 none 128 100
        [Callback.modelCheckpoint "checkpoints/m1.h5" "val_loss" true true] 1 [])
      ⟨["checkpoints/"], []⟩ (by decide)
  · exact (C5_checkpoint_dir_exists_before_fit demoEnv fsWithDir 0 demoDataNoValid
      100 128 [] "m1" "val_loss" 1 [] 1 2 (3, 4)).2 rfl

/-- With `verbose = 0` no branch of `train` writes to standard output. -/
theorem train_verbose0_no_stdout (env : Env) (fs0 : FS) (w0 : Weights)
    (data : List (String × DataPair)) (nb bs : Nat) (cbs : List Callback)
    (cp : Option String) (mon : String) (kw : List (String × Nat)) :
    (train env fs0 w0 data nb bs cbs cp mon 0 kw).trace.filter
      Effect.isStdoutWrite = [] := by
  have hmdp := maybeDirPhase_snd_filter env cp fs0 Effect.isStdoutWrite
    (fun _ _ => rfl) (fun _ => rfl)
  have hlp : ∀ r : FitRes,
      ((loadPhase env cp r).2.2).filter Effect.isStdoutWrite = [] :=
    fun r => loadPhase_snd_filter env cp r Effect.isStdoutWrite
      (fun _ _ => rfl) (fun _ => rfl) (fun _ => rfl)
  unfold train
  cases ht : dictGet data "train" with
  | none => simp
  | some p =>
    obtain ⟨xt, yt⟩ := p
    cases hs : dictGet data "test" with
    | none => simp
    | some q =>
      cases hd : maybeDirPhase env cp fs0 with
      | mk res tr1 =>
        rw [hd] at hmdp
        cases res with
        | error e => simpa using hmdp
        | ok fs1 =>
          cases hf : env.fitResult (mkFitCall xt yt (dictGet data "valid") bs nb
              (ckptCallbacks cbs cp mon) 0 kw) fs1 w0 with
          | error e =>
            simp only [hf, List.filter_append]
            simp [hmdp, Effect.isStdoutWrite]
          | ok r =>
            simp only [hf, List.filter_append]
            simp [hmdp, hlp r, Effect.isStdoutWrite]

/-- C7: for every call to `train`, if `verbose` is enabled (and the run
reaches and completes the fit call) exactly two progress lines are written to
standard output, the start notice strictly before the fit call and the
completion notice after it; and if `verbose` is disabled no progress text
is written to standard output regardless of the checkpoint configuration or
of any outcome. -/
theorem C7_progress_output
    (env : Env) (fs0 : FS) (w0 : Weights) (data : List (String × DataPair))
    (nb bs : Nat) (cbs : List Callback) (cp : Option String) (mon : String)
    (kw : List (String × Nat)) (xt yt : Nat) (q : DataPair)
    (fs1 : FS) (tr1 : List Effect) (r : FitRes) :
    (∀ v : Nat, v ≠ 0 →
      dictGet data "train" = some (xt, yt) →
      dictGet data "test" = some q →
      maybeDirPhase env cp fs0 = (.ok fs1, tr1) →
      env.fitResult (mkFitCall xt yt (dictGet data "valid") bs nb
        (ckptCallbacks cbs cp mon) v kw) fs1 w0 = .ok r →
      (train env fs0 w0 data nb bs cbs cp mon v kw).trace.filter
          Effect.isStdoutOrFit
        = [Effect.stdoutWrite "Training...\n",
           Effect.fitCall (mkFitCall xt yt (dictGet data "valid") bs nb
             (ckptCallbacks cbs cp mon) v kw) fs1,
           Effect.stdoutWrite "Done.\n"]) ∧
    (train env fs0 w0 data nb bs cbs cp mon 0 kw).trace.filter
      Effect.isStdoutWrite = [] := by
  constructor
  · intro v hv ht hs hd hf
    have htr1 : tr1.filter Effect.isStdoutOrFit = [] := by
      have h := maybeDirPhase_snd_filter env cp fs0 Effect.isStdoutOrFit
        (fun _ _ => rfl) (fun _ => rfl)
      rw [hd] at h
      exact h
    have hlp : ((loadPhase env cp r).2.2).filter Effect.isStdoutOrFit = [] :=
      loadPhase_snd_filter env cp r Effect.isStdoutOrFit
        (fun _ _ => rfl) (fun _ => rfl) (fun _ => rfl)
    rw [train_unfold_ok env fs0 w0 data nb bs cbs cp mon v kw xt yt q fs1 tr1
          ht hs hd]
    simp only [hf, List.filter_append, htr1, hlp]
    simp [hv, Effect.isStdoutOrFit]
  · exact train_verbose0_no_stdout env fs0 w0 data nb bs cbs cp mon kw

/-- Closed witness for C7 at concrete inputs. -/
theorem C7_progress_output_witness :
    (train demoEnv fsWithDir 0 demoData 100 128 [] none "val_loss" 1
      []).trace.filter Effect.isStdoutOrFit
      = [Effect.stdoutWrite "Training...\n",
         Effect.fitCall (mkFitCall 1 2 (some (5, 6)) 128 100 [] 1 []) fsWithDir,
         Effect.stdoutWrite "Done.\n"] ∧
    (train demoEnv fsWithDir 0 demoData 100 128 [] none "val_loss" 0
      []).trace.filter Effect.isStdoutWrite = [] := by
  have h := C7_progress_output demoEnv fsWithDir 0 demoData 100 128 [] none
    "val_loss" [] 1 2 (3, 4) fsWithDir [] ⟨7, fsWithDir, 0⟩
  exact ⟨h.1 1 (by decide) rfl rfl rfl rfl, h.2⟩

/-- C8: for every call to `train`, any exception raised by directory
creation, by the delegated fit call, or by weight loading propagates to the
caller unmodified; a directory-creation failure additionally stops the run
before any fit call. -/
theorem C8_exceptions_propagate
    (env : Env) (fs0 : FS) (w0 : Weights) (data : List (String × DataPair))
    (nb bs : Nat) (cbs : List Callback) (n mon : String) (v : Nat)
    (kw : List (String × Nat)) (xt yt : Nat) (q : DataPair) :
    (∀ e : PyError, dictGet data "train" = some (xt, yt) →
      dictGet data "test" = some q →
      fs0.isdir checkpointsDir = false →
      env.mkdirFail fs0 checkpointsDir = some e →
      (train env fs0 w0 data nb bs cbs (some n) mon v kw).result = .error e ∧
      (train env fs0 w0 data nb bs cbs (some n) mon v kw).trace.filter
        Effect.isFit = []) ∧
    (∀ (e : PyError) (fs1 : FS) (tr1 : List Effect),
      dictGet data "train" = some (xt, yt) →
      dictGet data "test" = some q →
      maybeDirPhase env (some n) fs0 = (.ok fs1, tr1) →
      env.fitResult (mkFitCall xt yt (dictGet data "valid") bs nb
        (ckptCallbacks cbs (some n) mon) v kw) fs1 w0 = .error e →
      (train env fs0 w0 data nb bs cbs (some n) mon v kw).result = .error e) ∧
    (∀ (e : PyError) (fs1 : FS) (tr1 : List Effect) (r : FitRes),
      dictGet data "train" = some (xt, yt) →
      dictGet data "test" = some q →
      maybeDirPhase env (some n) fs0 = (.ok fs1, tr1) →
      env.fitResult (mkFitCall xt yt (dictGet data "valid") bs nb
        (ckptCallbacks cbs (some n) mon) v kw) fs1 w0 = .ok r →
      r.fs.isfile (checkpointPath n) = true →
      env.loadResult (checkpointPath n) r.fs = .error e →
      (train env fs0 w0 data nb bs cbs (some n) mon v kw).result = .error e) := by
  refine ⟨?_, ?_, ?_⟩
  · intro e ht hs hdir hmk
    unfold train
    rw [ht, hs]
    have hd : maybeDirPhase env (some n) fs0 = (.error e,
        [.isdirCheck checkpointsDir false, .makedirs checkpointsDir]) := by
      simp [maybeDirPhase, dirPhase_mkdir_fail env fs0 e hdir hmk]
    rw [hd]
    exact ⟨rfl, rfl⟩
  · intro e fs1 tr1 ht hs hd hf
    rw [train_unfold_ok env fs0 w0 data nb bs cbs (some n) mon v kw xt yt q
          fs1 tr1 ht hs hd]
    simp only [hf]
  · intro e fs1 tr1 r ht hs hd hf hfile hl
    rw [train_unfold_ok env fs0 w0 data nb bs cbs (some n) mon v kw xt yt q
          fs1 tr1 ht hs hd]
    simp only [hf, loadPhase_file_err env n r e hfile hl]

/-- Closed witness for C8: each of the three failure points exercised at a
concrete input. -/
theorem C8_exceptions_propagate_witness :
    ((train demoEnvFail emptyFS 0 demoDataNoValid 100 128 [] (some "m1")
        "val_loss" 1 []).result = .error (.osError "Permission denied") ∧
     (train demoEnvFail emptyFS 0 demoDataNoValid 100 128 [] (some "m1")
        "val_loss" 1 []).trace.filter Effect.isFit = []) ∧
    (train demoEnvFail fsWithDir 0 demoDataNoValid 100 128 [] (some "m1")
        "val_loss" 1 []).result = .error (.other "fit blew up") ∧
    (train demoEnvLoadFail fsWithDir 0 demoDataNoValid 100 128 [] (some "m1")
        "val_loss" 1 []).result = .error (.other "corrupt file") := by
  refine ⟨?_, ?_, ?_⟩
  · exact (C8_exceptions_propagate demoEnvFail emptyFS 0 demoDataNoValid 100 128
      [] "m1" "val_loss" 1 [] 1 2 (3, 4)).1 (.osError "Permission denied")
      rfl rfl rfl rfl
  · exact (C8_exceptions_propagate demoEnvFail fsWithDir 0 demoDataNoValid 100
      128 [] "m1" "val_loss" 1 [] 1 2 (3, 4)).2.1 (.other "fit blew up")
      fsWithDir [.isdirCheck checkpointsDir true] rfl rfl rfl rfl
  · exact (C8_exceptions_propagate demoEnvLoadFail fsWithDir 0 demoDataNoValid
      100 128 [] "m1" "val_loss" 1 [] 1 2 (3, 4)).2.2 (.other "corrupt file")
      fsWithDir [.isdirCheck checkpointsDir true] ⟨7, fsWithFile, 5⟩
      rfl rfl rfl rfl (by decide) rfl

/-- C9: for every use of the `elapsed_timer` scope entered at tick `k0` over
a monotone wall clock, the yielded callable invoked at any tick `k` inside
the scope returns the elapsed wall-clock time measured at the moment of the
call, i.e. current time minus entry time, which is non-negative. -/
theorem C9_elapsed_timer_reports_elapsed
    (clock : Nat → ℚ) (k0 k : Nat) (hm : Monotone clock) (hk : k0 ≤ k) :
    elapsed_timer clock k0 k = default_timer clock k - default_timer clock k0 ∧
    0 ≤ elapsed_timer clock k0 k := by
  constructor
  · rfl
  · have h : clock k0 ≤ clock k := hm hk
    simp only [elapsed_timer, default_timer]
    linarith

/-- Closed witness for C9 with the clock reading tick `n` as `n` seconds. -/
theorem C9_elapsed_timer_reports_elapsed_witness :
    elapsed_timer (Nat.cast : Nat → ℚ) 1 3
      = default_timer (Nat.cast : Nat → ℚ) 3 - default_timer (Nat.cast : Nat → ℚ) 1 ∧
    0 ≤ elapsed_timer (Nat.cast : Nat → ℚ) 1 3 :=
  C9_elapsed_timer_reports_elapsed (Nat.cast : Nat → ℚ) 1 3 Nat.mono_cast
    (by decide)

/-- C10: for every call to `train`, the dataset must contain a `test` key
(its absence makes the call fail with a lookup error before any effect, in
particular before training starts), yet the pair bound to that key has no
effect on the call's behaviour: two datasets agreeing on `train` and `valid`
and both containing some `test` entry produce identical outcomes. -/
theorem C10_test_split_required_but_unused
    (env : Env) (fs0 : FS) (w0 : Weights) (nb bs : Nat) (cbs : List Callback)
    (cp : Option String) (mon : String) (v : Nat) (kw : List (String × Nat)) :
    (∀ (data : List (String × DataPair)) (p : DataPair),
      dictGet data "train" = some p → dictGet data "test" = none →
      train env fs0 w0 data nb bs cbs cp mon v kw
        = ⟨.error (.keyError "test"), fs0, w0, [], cbs⟩) ∧
    (∀ data₁ data₂ : List (String × DataPair),
      dictGet data₁ "train" = dictGet data₂ "train" →
      dictGet data₁ "valid" = dictGet data₂ "valid" →
      (dictGet data₁ "test").isSome → (dictGet data₂ "test").isSome →
      train env fs0 w0 data₁ nb bs cbs cp mon v kw
        = train env fs0 w0 data₂ nb bs cbs cp mon v kw) := by
  constructor
  · intro data p hTrain hTest
    obtain ⟨xt, yt⟩ := p
    unfold train
    rw [hTrain, hTest]
  · intro data₁ data₂ hTrain hValid hTest₁ hTest₂
    obtain ⟨q₁, hq₁⟩ := Option.isSome_iff_exists.mp hTest₁
    obtain ⟨q₂, hq₂⟩ := Option.isSome_iff_exists.mp hTest₂
    unfold train
    cases h1 : dictGet data₁ "train" with
    | none =>
      rw [hTrain.symm.trans h1]
    | some p =>
      obtain ⟨xt, yt⟩ := p
      rw [hTrain.symm.trans h1, hq₁, hq₂, hValid]

/-- Closed witness for C10: a dataset missing `test` fails with the lookup
error, and two datasets differing only in the `test` pair run identically. -/
theorem C10_test_split_required_but_unused_witness :
    train demoEnv emptyFS 0 [("train", (1, 2))] 100 128 [] none "val_loss" 1 []
      = ⟨.error (.keyError "test"), emptyFS, 0, [], []⟩ ∧
    train demoEnv emptyFS 0 [("train", (1, 2)), ("test", (3, 4))] 100 128 []
        none "val_loss" 1 []
      = train demoEnv emptyFS 0 [("train", (1, 2)), ("test", (99, 100))] 100 128
          [] none "val_loss" 1 [] := by
  have h := C10_test_split_required_but_unused demoEnv emptyFS 0 100 128 [] none
    "val_loss" 1 []
  exact ⟨h.1 [("train", (1, 2))] (1, 2) rfl rfl,
         h.2 [("train", (1, 2)), ("test", (3, 4))]
           [("train", (1, 2)), ("test", (99, 100))] rfl rfl (by decide) (by decide)⟩

/-- C6 (evaluation of the defect): after two sequential calls that both rely
on the default callbacks list, with a checkpoint name set, the second call's
fit receives a callbacks list carrying TWO accumulated checkpoint hooks - the
one appended by the first call plus its own - because line 63's `+=` mutates
the shared default-argument object.  The claim (and section 9 of the design
notes) requires each such call to start from a fresh empty sequence, which
would give the fit call exactly one hook. -/
theorem C6_default_callbacks_accumulate :
    ((twoDefaultCalls demoEnv emptyFS 0 demoDataNoValid 100 128 (some "m1")
        "val_loss" 1 []).2.trace.filterMap Effect.fitCallbacks)
      = [[Callback.modelCheckpoint "checkpoints/m1.h5" "val_loss" true true,
          Callback.modelCheckpoint "checkpoints/m1.h5" "val_loss" true true]] := by
  decide

end Kgp
